import Mathlib

/-!
Verification of the GRL MP TPR/TPT Python API automation client.

This development shallowly embeds the test-execution orchestration core of the
repository: the status parsing and the system-state tracking of
`client/grl_api_client.py`, the transport boundary of
`API/grl_api_handler.py`, the process-launcher probing of
`utils/web_app_controller.py`, and the submit/monitor/cancel loop of
`GRLApiClient.submit_test_list`.  JSON payloads are modelled by an explicit
`Json` type, Python attribute errors and type errors by `Except`, wall-clock
timeouts by fuel counters corresponding to the polling cadence of the source,
and HTTP traffic by outcome oracles supplied as arguments.
-/

/-- JSON values as manipulated by the Python client (dicts are association
lists in payload order). -/
inductive Json where
  | str (s : String)
  | num (n : Int)
  | bool (b : Bool)
  | null
  | arr (xs : List Json)
  | obj (fields : List (String × Json))

/-- Field lookup in a JSON object, mirroring Python `dict` key access. -/
def lookupField : List (String × Json) → String → Option Json
  | [], _ => none
  | (k, v) :: rest, key => if k == key then some v else lookupField rest key

/-- `True` exactly on the `obj` constructor (the Python values that own a
`.get` method). -/
def Json.isObj : Json → Bool
  | .obj _ => true
  | _ => false

/-- `True` exactly on the `str` constructor (the Python values that own
string methods such as `.startswith`). -/
def Json.isStr : Json → Bool
  | .str _ => true
  | _ => false

/-- Python truthiness of a JSON value (`if value:`). -/
def Json.truthy : Json → Bool
  | .str s => !(s == "")
  | .num n => !(n == 0)
  | .bool b => b
  | .null => false
  | .arr xs => !xs.isEmpty
  | .obj fs => !fs.isEmpty

/-- Python `value.get(key, default)`: succeeds on dicts, raises
`AttributeError` on every other value. -/
def pyGet : Json → String → Json → Except String Json
  | .obj fs, key, dflt => .ok ((lookupField fs key).getD dflt)
  | _, _, _ => .error "AttributeError"

/-- Does the character list `pat` occur at the head of `text`? -/
def charsStartWith : List Char → List Char → Bool
  | [], _ => true
  | _ :: _, [] => false
  | a :: as, b :: bs => a == b && charsStartWith as bs

/-- Python `s.startswith(p)` on strings. -/
def strStarts (s p : String) : Bool :=
  charsStartWith p.toList s.toList

/-- Python `value.startswith(p)`: defined on strings, raises
`AttributeError` otherwise. -/
def pyStartsWith : Json → String → Except String Bool
  | .str s, p => .ok (strStarts s p)
  | _, _ => .error "AttributeError"

/-- Python `s.split(sep)` for a one-character separator: the segments
between separator occurrences, empty segments kept. -/
def charsSplit (sep : Char) : List Char → List (List Char)
  | [] => [[]]
  | c :: cs =>
    if c == sep then [] :: charsSplit sep cs
    else
      match charsSplit sep cs with
      | [] => [[c]]
      | g :: gs => (c :: g) :: gs

/-- Python `s.split(':')`. -/
def pySplitColon (s : String) : List String :=
  (charsSplit ':' s.toList).map fun l => String.mk l

/-- The characters Python `str.strip()` removes. -/
def charIsSpace (c : Char) : Bool :=
  c == ' ' || c == '\t' || c == '\n' || c == '\r' || c == '\x0b' || c == '\x0c'

/-- Python `s.strip()`: whitespace removed from both ends. -/
def pyStrip (s : String) : String :=
  String.mk ((((s.toList.dropWhile charIsSpace).reverse).dropWhile charIsSpace).reverse)

/-- Python `c.upper()` for one ASCII character. -/
def charUpper (c : Char) : Char :=
  if 'a' ≤ c && c ≤ 'z' then Char.ofNat (c.toNat - 32) else c

/-- Python `s.upper()`. -/
def pyUpper (s : String) : String :=
  String.mk (s.toList.map charUpper)

/-- Python `value == "lit"` for a JSON value against a string literal:
never raises, `False` across types. -/
def jsonEqStr : Json → String → Bool
  | .str s, t => s == t
  | _, _ => false

/-- Does the character list `pat` occur anywhere inside `text`? -/
def charsContain (pat : List Char) : List Char → Bool
  | [] => charsStartWith pat []
  | c :: cs => charsStartWith pat (c :: cs) || charsContain pat cs

/-- Python substring test `needle in hay` on strings. -/
def strContains (hay needle : String) : Bool :=
  charsContain needle.toList hay.toList

/-- Python `needle in container`: substring test on strings, membership on
lists, key membership on dicts, `TypeError` on the other values. -/
def pyIn (needle : String) : Json → Except String Bool
  | .str s => .ok (strContains s needle)
  | .arr xs => .ok (xs.any fun j => jsonEqStr j needle)
  | .obj fs => .ok (fs.any fun f => f.1 == needle)
  | .num _ => .error "TypeError"
  | .bool _ => .error "TypeError"
  | .null => .error "TypeError"

/-!
## State Snapshot — `client/system_state.py`

The `SystemState` dataclass.  `app_state` and `connection_state` are declared
as strings but the client assigns them whatever JSON value
`app_state_dict.get(...)` returns, so they are modelled as `Json`;
`test_case_name` and `test_status` are only ever assigned stripped strings or
`None`.
-/

structure SystemState where
  app_state : Json
  connection_state : Json
  test_case_name : Option String
  test_status : Option String

/-- The snapshot the client constructs at start-up:
`SystemState(app_state='UNKNOWN', connection_state='UNKNOWN')`. -/
def initialSystemState : SystemState :=
  { app_state := .str "UNKNOWN", connection_state := .str "UNKNOWN"
    test_case_name := none, test_status := none }

/-- The four assignments of the outer `except` clause of
`update_system_state`. -/
def errorSystemState : SystemState :=
  { app_state := .str "ERROR", connection_state := .str "ERROR"
    test_case_name := none, test_status := none }

/-- The inner `try` of `update_system_state`: split the status string on
`':'`, and when at least 3 parts are present store the stripped second part
as the test-case name and the stripped last part as the status; otherwise
log and leave the test fields unchanged.  Every operation here is total on
strings, matching the fact that the inner handler cannot fire for a `str`
input. -/
def parseTestInfo (st : SystemState) (s : String) : SystemState :=
  let parts := pySplitColon s
  if parts.length ≥ 3 then
    { st with test_case_name := some (pyStrip (parts.getD 1 ""))
              test_status := some (pyStrip (parts.getLastD "")) }
  else
    st

/-- Body of `GRLApiClient.update_system_state` (the outer `try` block), with
Python `AttributeError`s surfaced in the `Except` error channel together
with the snapshot as mutated up to the raise point. -/
def update_system_stateBody (st : SystemState) (app_state_dict test_status_dict : Json) :
    Except (String × SystemState) SystemState :=
  match pyGet app_state_dict "appState" (.str "UNKNOWN") with
  | .error e => .error (e, st)
  | .ok a =>
    let st := { st with app_state := a }
    match pyGet app_state_dict "connectionState" (.str "UNKNOWN") with
    | .error e => .error (e, st)
    | .ok c =>
      let st := { st with connection_state := c }
      match pyGet test_status_dict "Test Status" (.str "") with
      | .error e => .error (e, st)
      | .ok test_info_string =>
        if test_info_string.truthy then
          match pyStartsWith test_info_string "Test:" with
          | .error e => .error (e, st)
          | .ok b =>
            if b then
              match test_info_string with
              | .str s => .ok (parseTestInfo st s)
              | _ => .ok st
            else
              .ok st
        else
          .ok st

/-- `GRLApiClient.update_system_state`: the outer `except` clause overwrites
all four snapshot fields with the ERROR sentinels / `None`. -/
def update_system_state (st : SystemState) (app_state_dict test_status_dict : Json) :
    SystemState :=
  match update_system_stateBody st app_state_dict test_status_dict with
  | .ok st' => st'
  | .error _ => errorSystemState

/-!
## Monitor predicate — `GRLApiClient._is_test_running`

The method fetches the two status endpoints, extracts
`response.get("response", {}).get("data", {})` from each, refreshes the
snapshot via `update_system_state`, and then decides "running" from the
`appState` value and the `Test Status` string.  Any exception inside the
`try` makes it return `False`.  The two endpoint responses are supplied as
`Json` arguments; the function returns the decision together with the
snapshot as left behind.
-/

/-- Body of `_is_test_running` (the `try` block): errors carry the snapshot
as mutated up to the raise point. -/
def is_test_runningBody (st : SystemState) (test_status_response app_state_response : Json) :
    Except (String × SystemState) (Bool × SystemState) :=
  match pyGet test_status_response "response" (.obj []) with
  | .error e => .error (e, st)
  | .ok tresp =>
    match pyGet tresp "data" (.obj []) with
    | .error e => .error (e, st)
    | .ok test_status =>
      match pyGet app_state_response "response" (.obj []) with
      | .error e => .error (e, st)
      | .ok aresp =>
        match pyGet aresp "data" (.obj []) with
        | .error e => .error (e, st)
        | .ok app_state =>
          let st1 := update_system_state st app_state test_status
          match pyGet test_status "Test Status" (.str "") with
          | .error e => .error (e, st1)
          | .ok current_test_status =>
            match pyGet app_state "appState" (.str "") with
            | .error e => .error (e, st1)
            | .ok app_state_value =>
              if jsonEqStr app_state_value "READY" then
                .ok (false, st1)
              else
                match pyIn "Started" current_test_status with
                | .error e => .error (e, st1)
                | .ok started =>
                  if started || jsonEqStr app_state_value "BUSY" then
                    .ok (true, st1)
                  else
                    .ok (false, st1)

/-- `GRLApiClient._is_test_running`: the `except` clause returns `False`. -/
def is_test_running (st : SystemState) (test_status_response app_state_response : Json) :
    Bool × SystemState :=
  match is_test_runningBody st test_status_response app_state_response with
  | .ok r => r
  | .error (_, st') => (false, st')

/-- A well-formed `Results/GetTestStatus` response whose data carries the
given `Test Status` string. -/
def mkTestStatusResponse (ts : String) : Json :=
  .obj [("response", .obj [("data", .obj [("Test Status", .str ts)])])]

/-- A well-formed `App/GetAppState` response whose data carries the given
`appState` string. -/
def mkAppStateResponse (a : String) : Json :=
  .obj [("response", .obj [("data", .obj [("appState", .str a)])])]

/-!
## Transport boundary — `API/grl_api_handler.py`

`send_request` builds the result skeleton, dispatches via
`_dispatch_request`, and catches exactly the three `requests` exception
classes; the `ValueError` that `_dispatch_request` raises for an unsupported
HTTP method is not among them and escapes.  On the caught path the response
sub-dict receives only the `error` key.
-/

/-- An HTTP response as seen by `send_request`: status code, headers, the
body both as text and (when it parses) as JSON. -/
structure HttpResponse where
  status_code : Nat
  headers : List (String × String)
  jsonBody : Option Json
  text : String

/-- What the network does for one dispatched request. -/
inductive DispatchOutcome where
  | ok (r : HttpResponse)
  | connError
  | timeout
  | reqExc (msg : String)

/-- The Python exceptions crossing `_dispatch_request`. -/
inductive PyExc where
  | connectionError
  | timeoutError
  | requestException (msg : String)
  | valueError (msg : String)

/-- The method-name comparison chain of `_dispatch_request`: one branch per
supported HTTP verb. -/
def isSupportedMethod (method : String) : Bool :=
  method == "GET" || method == "POST" || method == "PUT" || method == "DELETE"

/-- `GRLApiHandler._dispatch_request` chooses the session call by comparing
the method string; an unrecognized method raises `ValueError`. -/
def dispatch_request (method : String) (out : DispatchOutcome) :
    Except PyExc HttpResponse :=
  if isSupportedMethod method then
    match out with
    | .ok r => .ok r
    | .connError => .error .connectionError
    | .timeout => .error .timeoutError
    | .reqExc m => .error (.requestException m)
  else
    .error (.valueError ("Unsupported HTTP method: " ++ method))

/-- `True` on the three network outcomes that `send_request` catches. -/
def DispatchOutcome.isTransportFailure : DispatchOutcome → Bool
  | .connError => true
  | .timeout => true
  | .reqExc _ => true
  | .ok _ => false

/-- The message `send_request` records for each caught network outcome. -/
def DispatchOutcome.errorMsg : DispatchOutcome → String
  | .connError => "Connection error"
  | .timeout => "Request timed out"
  | .reqExc m => m
  | .ok _ => ""

/-- `GRLApiHandler.send_request`: result dict with `request` and `response`
parts; a 2xx/ non-2xx response fills `status_code`/`success`/`data`; a
caught transport exception leaves `response` holding only `error`; the
unsupported-method `ValueError` propagates. -/
def send_request (base_url method service endpoint : String)
    (out : DispatchOutcome) : Except PyExc Json :=
  let url := base_url ++ "/" ++ service ++ (if endpoint ≠ "" then "/" ++ endpoint else "")
  let requestPart : Json :=
    .obj [("method", .str (pyUpper method)), ("url", .str url)]
  match dispatch_request (pyUpper method) out with
  | .ok r =>
    let dataCT : Json × String :=
      match r.jsonBody with
      | some j => (j, "json")
      | none => (.str r.text, "text")
    .ok (.obj [("request", requestPart),
      ("response", .obj [
        ("status_code", .num r.status_code),
        ("success", .bool (decide (200 ≤ r.status_code ∧ r.status_code < 300))),
        ("headers", .obj (r.headers.map fun p => (p.1, .str p.2))),
        ("content_type", .str dataCT.2),
        ("data", dataCT.1)])])
  | .error (.valueError m) => .error (.valueError m)
  | .error .connectionError =>
    .ok (.obj [("request", requestPart),
      ("response", .obj [("error", .str "Connection error")])])
  | .error .timeoutError =>
    .ok (.obj [("request", requestPart),
      ("response", .obj [("error", .str "Request timed out")])])
  | .error (.requestException m) =>
    .ok (.obj [("request", requestPart),
      ("response", .obj [("error", .str m)])])

/-- Read a field of the `response` sub-dict of a `send_request` result. -/
def responseField (res : Except PyExc Json) (key : String) : Option Json :=
  match res with
  | .ok (.obj fs) =>
    match lookupField fs "response" with
    | some (.obj rs) => lookupField rs key
    | _ => none
  | _ => none

/-!
## Popup log files — `GRLApiClient.create_empty_json`

The constructor ends with `create_empty_json()`, which opens
`popup_messages.json` and `test_case_popup_messages.json` and writes
`json.dump([], file)` into each.  The working directory is modelled by the
two file slots the method touches.
-/

/-- The two popup log files of the working directory (`none` = file does
not exist). -/
structure PopupFiles where
  popupLog : Option Json
  testCaseLog : Option Json

/-- `GRLApiClient.create_empty_json`: both files are overwritten with the
dump of the Python list `[]`. -/
def create_empty_json (_fs : PopupFiles) : PopupFiles :=
  { popupLog := some (.arr []), testCaseLog := some (.arr []) }

/-!
## Process Launcher — `utils/web_app_controller.py`

`start_and_get_url` first asks `_check_application_running`; that helper
requires a known port, a bound socket on it, and one of the three probe
endpoints answering a GET (tried in order, first responder wins).  If so the
known URL is returned with no subprocess launched.  Otherwise the launch
path runs: spawn (guarded by a path-existence and immediate-exit check),
sleep `initial_wait`, then up to `max_connection_attempts` probe rounds
bounded by the wall clock.  Network and OS behaviour come in as oracle
fields; the result records whether a subprocess was spawned.
-/

/-- Fixed probe-path set of `WebAppController`. -/
def probeEndpoints : List String := ["/api/healthcheck", "/", "/api/status"]

/-- Environment of one `WebAppController` call. -/
structure LaunchEnv where
  known_port : Option Nat
  portInUse : Bool
  probeOk : String → Bool
  pathExists : Bool
  processAliveAfterSpawn : Bool
  clockExceeded : Nat → Bool
  connectProbeOk : Nat → String → Bool

/-- `self.web_url`: `http://localhost:{port}` when the port is known. -/
def LaunchEnv.webUrl (e : LaunchEnv) : Option String :=
  e.known_port.map fun p => "http://localhost:" ++ toString p

/-- `WebAppController._check_application_running`: no port ⇒ `False`; free
port ⇒ `False`; otherwise the first probe endpoint that answers wins. -/
def check_application_running (e : LaunchEnv) : Bool :=
  match e.known_port with
  | none => false
  | some _ =>
    if !e.portInUse then false
    else (probeEndpoints.find? e.probeOk).isSome

/-- `WebAppController._launch_process` for a controller with no tracked
process yet: re-checks liveness, validates the path, spawns, and fails if
the process exits immediately. -/
def launch_process (e : LaunchEnv) : Bool × Bool :=
  if check_application_running e then (true, false)
  else if !e.pathExists then (false, false)
  else if e.processAliveAfterSpawn then (true, true)
  else (false, true)

/-- The inner probe rounds of `start_and_get_url`: at each attempt the wall
clock is checked, then each endpoint is tried in order. -/
def connectRounds (e : LaunchEnv) (url : String) : Nat → Nat → Option String
  | _, 0 => none
  | attempt, fuel + 1 =>
    if e.clockExceeded attempt then none
    else
      match probeEndpoints.find? (e.connectProbeOk attempt) with
      | some _ => some url
      | none => connectRounds e url (attempt + 1) fuel

/-- `WebAppController.start_and_get_url`: returns the resolved URL (or
`none`) paired with whether a subprocess was spawned during the call. -/
def start_and_get_url (e : LaunchEnv) (max_connection_attempts : Nat) :
    Option String × Bool :=
  if check_application_running e then (e.webUrl, false)
  else
    match launch_process e with
    | (false, spawned) => (none, spawned)
    | (true, spawned) =>
      match e.webUrl with
      | none => (none, spawned)
      | some url => (connectRounds e url 1 max_connection_attempts, spawned)

/-!
## Test submission and monitoring — `GRLApiClient.submit_test_list`

The stop flag only ever moves from `False` to `True` during a run
(`submit_test_list` resets it once at entry, `stop_test_run` /
`stop_test_execution` set it), so it is modelled by the poll index at which
it becomes observable.  `_is_test_running`'s verdict at the n-th poll of the
run is an oracle `running : Nat → Bool`; the wait-for-start loop polls once
per second against its 30-second bound (fuel 30), and the half-second
monitor loop gets explicit fuel, `none` meaning it was still looping when
the fuel ran out.
-/

/-- Environment of one `submit_test_list` run. -/
structure MonitorEnv where
  running : Nat → Bool
  stopAt : Option Nat

/-- Reading `self.stop_requested` at poll index `t`. -/
def stopRead (env : MonitorEnv) (t : Nat) : Bool :=
  match env.stopAt with
  | none => false
  | some k => decide (k ≤ t)

/-- The wait-for-start loop (`while time.time() - start_time < timeout and
not self.stop_requested`): from poll index `i` with the remaining seconds as
fuel, returns `test_started` and the next poll index. -/
def waitForStart (env : MonitorEnv) : Nat → Nat → Bool × Nat
  | i, 0 => (false, i)
  | i, fuel + 1 =>
    if stopRead env i then (false, i)
    else if env.running i then (true, i + 1)
    else waitForStart env (i + 1) fuel

/-- The running-phase loop (`while self._is_test_running() and not
self.stop_requested`): returns the poll index at which the loop condition
failed, or `none` when the fuel ran out first. -/
def monitorLoop (env : MonitorEnv) : Nat → Nat → Option Nat
  | _, 0 => none
  | j, fuel + 1 =>
    if env.running j && !stopRead env j then monitorLoop env (j + 1) fuel
    else some j

/-- The `{success, error?, warning?}` dict returned by `submit_test_list`. -/
structure OpResult where
  success : Bool
  error : Option String
  warning : Option String
deriving DecidableEq, Repr

/-- Outcome of a `submit_test_list` call, together with the observable side
effects the claims speak about. -/
structure SubmitOutcome where
  result : OpResult
  forceStops : Nat
  popupThreadStarted : Bool
  submissionIssued : Bool
deriving DecidableEq, Repr

/-- `GRLApiClient.submit_test_list`.  `handlerReady` is whether
`launch_app()` installed an API handler (`_check_api_handler` raises
otherwise); `submitOk` is the `success` flag of the
`PostTestListToExecute` response; `runFuel` bounds the half-second monitor
loop, `none` meaning the fuel ran out while the test still ran. -/
def submit_test_list (handlerReady : Bool) (env : MonitorEnv) (submitOk : Bool)
    (test_list : List String) (runFuel : Nat) : Except String (Option SubmitOutcome) :=
  if !handlerReady then
    .error "API handler not initialized. Please call launch_app() first."
  else if test_list.isEmpty then
    .ok (some ⟨⟨false, some "Empty test list provided", none⟩, 0, false, false⟩)
  else if !submitOk then
    .ok (some ⟨⟨false, some "Failed to submit test list", none⟩, 0, true, true⟩)
  else
    let ws := waitForStart env 0 30
    if !ws.1 && !stopRead env ws.2 then
      .ok (some ⟨⟨true, none,
        some "Test submission successful but test did not start within timeout"⟩,
        0, true, true⟩)
    else
      match monitorLoop env ws.2 runFuel with
      | none => .ok none
      | some j =>
        if stopRead env j then
          .ok (some ⟨⟨false, some "Test cancelled by user", none⟩, 1, true, true⟩)
        else
          .ok (some ⟨⟨true, none, none⟩, 0, true, true⟩)

/-!
## Theorems

Each claim is settled by one theorem below, preceded by helper lemmas where
a loop argument is needed.
-/

/-- Evaluation lemma: on well-formed status and app-state payloads the
monitor predicate reduces to the asymmetric READY/`"Started"`/BUSY check of
the source. -/
theorem is_test_running_eval (st : SystemState) (ts a : String) :
    (is_test_running st (mkTestStatusResponse ts) (mkAppStateResponse a)).1
      = if a == "READY" then false
        else if strContains ts "Started" || a == "BUSY" then true
        else false := by
  cases h1 : (a == "READY") with
  | true =>
    have ha : a = "READY" := by simpa using h1
    subst ha
    rfl
  | false =>
    cases h2 : strContains ts "Started" with
    | true =>
      simp [is_test_running, is_test_runningBody, mkTestStatusResponse, mkAppStateResponse,
        pyGet, lookupField, jsonEqStr, pyIn, h1, h2]
    | false =>
      cases h3 : (a == "BUSY") with
      | true =>
        simp [is_test_running, is_test_runningBody, mkTestStatusResponse, mkAppStateResponse,
          pyGet, lookupField, jsonEqStr, pyIn, h1, h2, h3]
      | false =>
        simp [is_test_running, is_test_runningBody, mkTestStatusResponse, mkAppStateResponse,
          pyGet, lookupField, jsonEqStr, pyIn, h1, h2, h3]

/-- C1: the running predicate of `_is_test_running` on every polled pair of
app-state string and test-status string: `READY` forces not-running even
when the status contains `"Started"`; `BUSY` forces running; a status
containing `"Started"` with any non-`READY` app state forces running; every
other pair is not-running. -/
theorem monitor_running_predicate (st : SystemState) (a ts : String) :
    ((a = "READY" →
        (is_test_running st (mkTestStatusResponse ts) (mkAppStateResponse a)).1 = false)
      ∧ (a = "BUSY" →
        (is_test_running st (mkTestStatusResponse ts) (mkAppStateResponse a)).1 = true)
      ∧ (strContains ts "Started" = true → a ≠ "READY" →
        (is_test_running st (mkTestStatusResponse ts) (mkAppStateResponse a)).1 = true)
      ∧ (a ≠ "READY" → a ≠ "BUSY" → strContains ts "Started" = false →
        (is_test_running st (mkTestStatusResponse ts) (mkAppStateResponse a)).1 = false)) := by
  have h := is_test_running_eval st ts a
  refine ⟨?_, ?_, ?_, ?_⟩
  · intro ha; subst ha; simpa using h
  · intro ha; subst ha; simpa using h
  · intro hts ha; rw [h]; simp [ha, hts]
  · intro ha hb hts; rw [h]; simp [ha, hb, hts]

/-- Witness for the running predicate: the READY override, the BUSY case and
the `"Started"` case at concrete inputs. -/
theorem monitor_running_predicate_witness :
    (is_test_running initialSystemState (mkTestStatusResponse "Test:X:Started")
        (mkAppStateResponse "READY")).1 = false
    ∧ (is_test_running initialSystemState (mkTestStatusResponse "")
        (mkAppStateResponse "BUSY")).1 = true
    ∧ (is_test_running initialSystemState (mkTestStatusResponse "Test:X:Started")
        (mkAppStateResponse "IDLE")).1 = true :=
  ⟨(monitor_running_predicate initialSystemState "READY" "Test:X:Started").1 rfl,
   (monitor_running_predicate initialSystemState "BUSY" "").2.1 rfl,
   (monitor_running_predicate initialSystemState "IDLE" "Test:X:Started").2.2.1 (by decide)
     (by decide)⟩

/-- Helper: a truthy non-string `Test Status` value makes the body of
`update_system_state` raise `AttributeError` at the `.startswith` call,
after the two state fields were already assigned. -/
theorem update_body_nonstr (st : SystemState) (fs : List (String × Json)) (v : Json)
    (hv : v.truthy = true) (hs : v.isStr = false) :
    update_system_stateBody st (.obj fs) (.obj [("Test Status", v)])
      = .error ("AttributeError",
          { st with app_state := (lookupField fs "appState").getD (.str "UNKNOWN"),
                    connection_state :=
                      (lookupField fs "connectionState").getD (.str "UNKNOWN") }) := by
  cases v with
  | str s => simp [Json.isStr] at hs
  | null => simp [Json.truthy] at hv
  | num n => simp [update_system_stateBody, pyGet, lookupField, pyStartsWith, hv]
  | bool b => simp [update_system_stateBody, pyGet, lookupField, pyStartsWith, hv]
  | arr xs => simp [update_system_stateBody, pyGet, lookupField, pyStartsWith, hv]
  | obj gs => simp [update_system_stateBody, pyGet, lookupField, pyStartsWith, hv]

/-- C2: when the `Test Status` value is a truthy non-string — the one way
the status-handling section of `update_system_state` can raise — an
exception is raised while parsing and the snapshot is forced to
`app_state = connection_state = ERROR` with both test fields cleared
(`None`): the parse failure surfaces as state corruption. -/
theorem update_state_parse_error_corrupts (st : SystemState) (a v : Json)
    (ha : a.isObj = true) (hv : v.truthy = true) (hs : v.isStr = false) :
    (∃ e, update_system_stateBody st a (.obj [("Test Status", v)]) = .error e)
      ∧ update_system_state st a (.obj [("Test Status", v)]) = errorSystemState := by
  cases a with
  | str s => simp [Json.isObj] at ha
  | num n => simp [Json.isObj] at ha
  | bool b => simp [Json.isObj] at ha
  | null => simp [Json.isObj] at ha
  | arr xs => simp [Json.isObj] at ha
  | obj fs =>
    refine ⟨⟨_, update_body_nonstr st fs v hv hs⟩, ?_⟩
    simp [update_system_state, update_body_nonstr st fs v hv hs]

/-- Witness: a list-valued `Test Status` raises during parsing and corrupts
the snapshot to the ERROR sentinels. -/
theorem update_state_parse_error_corrupts_witness :
    (∃ e, update_system_stateBody initialSystemState (.obj [])
        (.obj [("Test Status", .arr [.num 1])]) = .error e)
      ∧ update_system_state initialSystemState (.obj [])
        (.obj [("Test Status", .arr [.num 1])]) = errorSystemState :=
  update_state_parse_error_corrupts initialSystemState (.obj []) (.arr [.num 1])
    rfl rfl rfl

/-- C3 counterexample: `"A:B:C"` splits into 3 colon-segments, yet because
it does not start with `"Test:"` the snapshot's `test_case_name` stays
`None` instead of becoming the second segment `"B"` the claim demands. -/
theorem status_parse_counterexample :
    (update_system_state initialSystemState (.obj [])
        (.obj [("Test Status", .str "A:B:C")])).test_case_name = none
      ∧ ((none : Option String) ≠ some "B") :=
  ⟨rfl, by simp⟩

/-- C3 amended: for every status string that starts with `"Test:"` and
splits on `':'` into at least 3 segments, `test_case_name` becomes the
stripped second segment and `test_status` the stripped last segment (middle
segments ignored); a string with fewer than 3 segments — and likewise any
string not starting with `"Test:"` — leaves both test fields unchanged. -/
theorem status_parse_amended (st : SystemState) (fs : List (String × Json)) (s : String) :
    ((strStarts s "Test:" = true → (pySplitColon s).length ≥ 3 →
        (update_system_state st (.obj fs) (.obj [("Test Status", .str s)])).test_case_name
            = some (pyStrip ((pySplitColon s).getD 1 ""))
          ∧ (update_system_state st (.obj fs) (.obj [("Test Status", .str s)])).test_status
            = some (pyStrip ((pySplitColon s).getLastD "")))
      ∧ ((pySplitColon s).length < 3 →
        (update_system_state st (.obj fs) (.obj [("Test Status", .str s)])).test_case_name
            = st.test_case_name
          ∧ (update_system_state st (.obj fs) (.obj [("Test Status", .str s)])).test_status
            = st.test_status)
      ∧ (strStarts s "Test:" = false →
        (update_system_state st (.obj fs) (.obj [("Test Status", .str s)])).test_case_name
            = st.test_case_name
          ∧ (update_system_state st (.obj fs) (.obj [("Test Status", .str s)])).test_status
            = st.test_status)) := by
  cases hE : (s == "") with
  | true =>
    have hs0 : s = "" := by simpa using hE
    subst hs0
    refine ⟨?_, ?_, ?_⟩
    · intro h; exact absurd h (by decide)
    · intro _
      constructor <;>
        simp [update_system_state, update_system_stateBody, pyGet, lookupField, Json.truthy]
    · intro _
      constructor <;>
        simp [update_system_state, update_system_stateBody, pyGet, lookupField, Json.truthy]
  | false =>
    cases hS : strStarts s "Test:" with
    | true =>
      by_cases hL : (pySplitColon s).length ≥ 3
      · refine ⟨?_, ?_, ?_⟩
        · intro _ _
          constructor <;>
            simp [update_system_state, update_system_stateBody, pyGet, lookupField,
              Json.truthy, pyStartsWith, hE, hS, parseTestInfo, hL]
        · intro h2; omega
        · intro h3; exact absurd h3 (by decide)
      · refine ⟨?_, ?_, ?_⟩
        · intro _ hlen; exact absurd hlen hL
        · intro _
          constructor <;>
            simp [update_system_state, update_system_stateBody, pyGet, lookupField,
              Json.truthy, pyStartsWith, hE, hS, parseTestInfo, hL]
        · intro h3; exact absurd h3 (by decide)
    | false =>
      refine ⟨?_, ?_, ?_⟩
      · intro h1; exact absurd h1 (by decide)
      · intro _
        constructor <;>
          simp [update_system_state, update_system_stateBody, pyGet, lookupField,
            Json.truthy, pyStartsWith, hE, hS]
      · intro _
        constructor <;>
          simp [update_system_state, update_system_stateBody, pyGet, lookupField,
            Json.truthy, pyStartsWith, hE, hS]

/-- Witness for the amended parsing: `"Test:Foo:Bar:Started"` yields
test-case name `"Foo"` and status `"Started"`. -/
theorem status_parse_amended_witness :
    (update_system_state initialSystemState (.obj [])
        (.obj [("Test Status", .str "Test:Foo:Bar:Started")])).test_case_name
        = some (pyStrip ((pySplitColon "Test:Foo:Bar:Started").getD 1 ""))
      ∧ (update_system_state initialSystemState (.obj [])
        (.obj [("Test Status", .str "Test:Foo:Bar:Started")])).test_status
        = some (pyStrip ((pySplitColon "Test:Foo:Bar:Started").getLastD "")) :=
  (status_parse_amended initialSystemState [] "Test:Foo:Bar:Started").1 (by decide) (by decide)

/-- C4 counterexample: on a connection error `send_request` returns a result
whose response holds only the `error` field — the `success` key is absent,
not `false` — and for an unsupported method the `ValueError` raised in
`_dispatch_request` propagates past `send_request` instead of being turned
into a result. -/
theorem transport_error_counterexample :
    responseField (send_request "http://localhost:5000/api" "GET" "App" "GetAppState"
        .connError) "success" = none
      ∧ responseField (send_request "http://localhost:5000/api" "GET" "App" "GetAppState"
        .connError) "error" = some (.str "Connection error")
      ∧ send_request "http://localhost:5000/api" "PATCH" "App" "GetAppState" .connError
        = .error (.valueError "Unsupported HTTP method: PATCH") :=
  ⟨rfl, rfl, rfl⟩

/-- C4 amended: for every input whose upper-cased method is one of
GET/POST/PUT/DELETE, every transport-level failure (connection refused,
timeout, generic request exception) is returned — not raised — as a result
whose response carries the normalized `error` message; on this path the
response carries no `success` key at all (so reading `success` yields the
falsy absent value rather than an explicit `false`). -/
theorem transport_error_normalized (base method service endpoint : String)
    (out : DispatchOutcome)
    (hm : isSupportedMethod (pyUpper method) = true)
    (hf : out.isTransportFailure = true) :
    ∃ r, send_request base method service endpoint out = .ok r
      ∧ responseField (.ok r) "error" = some (.str out.errorMsg)
      ∧ responseField (.ok r) "success" = none := by
  cases out with
  | ok r => simp [DispatchOutcome.isTransportFailure] at hf
  | connError =>
    have hsr : send_request base method service endpoint .connError
        = .ok (.obj [("request", .obj [("method", .str (pyUpper method)),
            ("url", .str (base ++ "/" ++ service
              ++ (if endpoint ≠ "" then "/" ++ endpoint else "")))]),
          ("response", .obj [("error", .str "Connection error")])]) := by
      simp [send_request, dispatch_request, hm]
    exact ⟨_, hsr, rfl, rfl⟩
  | timeout =>
    have hsr : send_request base method service endpoint .timeout
        = .ok (.obj [("request", .obj [("method", .str (pyUpper method)),
            ("url", .str (base ++ "/" ++ service
              ++ (if endpoint ≠ "" then "/" ++ endpoint else "")))]),
          ("response", .obj [("error", .str "Request timed out")])]) := by
      simp [send_request, dispatch_request, hm]
    exact ⟨_, hsr, rfl, rfl⟩
  | reqExc m =>
    have hsr : send_request base method service endpoint (.reqExc m)
        = .ok (.obj [("request", .obj [("method", .str (pyUpper method)),
            ("url", .str (base ++ "/" ++ service
              ++ (if endpoint ≠ "" then "/" ++ endpoint else "")))]),
          ("response", .obj [("error", .str m)])]) := by
      simp [send_request, dispatch_request, hm]
    exact ⟨_, hsr, rfl, rfl⟩

/-- Witness: a lower-case method normalizes to GET and a timeout is
returned as a `Request timed out` error result without a `success` key. -/
theorem transport_error_normalized_witness :
    ∃ r, send_request "http://localhost:5000/api" "get" "Results" "GetTestStatus"
        .timeout = .ok r
      ∧ responseField (.ok r) "error" = some (.str DispatchOutcome.timeout.errorMsg)
      ∧ responseField (.ok r) "success" = none :=
  transport_error_normalized "http://localhost:5000/api" "get" "Results" "GetTestStatus"
    .timeout (by decide) rfl

/-- C5 counterexample: at client construction `create_empty_json` writes the
JSON array `[]` into the per-test-case popup log file
`test_case_popup_messages.json`, not the JSON object `{}` the claim
states. -/
theorem popup_reset_counterexample :
    (create_empty_json ⟨none, none⟩).testCaseLog = some (.arr [])
      ∧ Json.arr [] ≠ Json.obj [] :=
  ⟨rfl, fun h => Json.noConfusion h⟩

/-- C5 amended: at client startup both popup log files are reset by writing
the JSON array `[]` into each — the flat log `popup_messages.json` and the
per-test-case log `test_case_popup_messages.json` alike (the latter is
only re-shaped into an object later, by `save_message_by_test_case`). -/
theorem popup_reset_amended (fs : PopupFiles) :
    create_empty_json fs
      = { popupLog := some (.arr []), testCaseLog := some (.arr []) } :=
  rfl

/-- Helper: while the test stays running and the stop flag becomes
observable at poll `k`, the running-phase loop exits exactly at `k`. -/
theorem monitorLoop_reaches_stop (env : MonitorEnv) (k : Nat)
    (hstop : env.stopAt = some k) :
    ∀ fuel i, i ≤ k → (∀ m, i ≤ m → m ≤ k → env.running m = true) →
      k - i < fuel → monitorLoop env i fuel = some k := by
  intro fuel
  induction fuel with
  | zero => intro i _ _ hf; omega
  | succ f ih =>
    intro i hik hrun _
    rcases Nat.lt_or_ge i k with hlt | hge
    · have hr : env.running i = true := hrun i (le_refl i) hik
      have hs : stopRead env i = false := by
        simp [stopRead, hstop]; omega
      rw [monitorLoop, hr, hs]
      simp only [Bool.not_false, Bool.and_true]
      have : k - (i + 1) < f := by omega
      exact ih (i + 1) (by omega) (fun m h1 h2 => hrun m (by omega) h2) this
    · have hik' : i = k := by omega
      subst hik'
      have hs : stopRead env i = true := by simp [stopRead, hstop]
      rw [monitorLoop, hs]
      simp

/-- C6: if the stop flag is set while the monitor is in its running phase
(the test is still observed running when the flag becomes visible at poll
`k`), `submit_test_list` issues exactly one force-stop request and returns
the failure result `Test cancelled by user`. -/
theorem submit_cancelled_by_user (env : MonitorEnv) (L : List String) (i k fuel : Nat)
    (hL : L ≠ []) (hw : waitForStart env 0 30 = (true, i))
    (hstop : env.stopAt = some k) (hik : i ≤ k)
    (hrun : ∀ m, i ≤ m → m ≤ k → env.running m = true)
    (hfuel : k - i < fuel) :
    submit_test_list true env true L fuel
      = .ok (some ⟨⟨false, some "Test cancelled by user", none⟩, 1, true, true⟩) := by
  have hml := monitorLoop_reaches_stop env k hstop fuel i hik hrun hfuel
  have hsk : stopRead env k = true := by simp [stopRead, hstop]
  simp only [submit_test_list, Bool.not_true, Bool.false_eq_true, if_false,
    List.isEmpty_eq_true, hL, if_true, hw, hml, hsk]
  simp

/-- Witness: the test starts at poll 1, the stop flag is set at poll 2 while
it still runs, and the run is cancelled with one force-stop call. -/
theorem submit_cancelled_by_user_witness :
    submit_test_list true ⟨fun m => decide (1 ≤ m), some 2⟩ true ["TC1"] 1
      = .ok (some ⟨⟨false, some "Test cancelled by user", none⟩, 1, true, true⟩) :=
  submit_cancelled_by_user ⟨fun m => decide (1 ≤ m), some 2⟩ ["TC1"] 2 2 1
    (by simp) rfl rfl (le_refl 2)
    (fun m h1 _ => by simp only [decide_eq_true_eq]; omega) (by decide)

/-- Helper: when the running oracle stays false and no stop is requested,
the wait-for-start loop consumes all its fuel and reports not-started. -/
theorem waitForStart_never_starts (env : MonitorEnv)
    (hstop : env.stopAt = none) :
    ∀ fuel i, (∀ m, i ≤ m → m < i + fuel → env.running m = false) →
      waitForStart env i fuel = (false, i + fuel) := by
  intro fuel
  induction fuel with
  | zero => intro i _; simp [waitForStart]
  | succ f ih =>
    intro i hrun
    have hs : stopRead env i = false := by simp [stopRead, hstop]
    have hr : env.running i = false := hrun i (le_refl i) (by omega)
    rw [waitForStart, hs, hr]
    simp only [Bool.false_eq_true, if_false]
    rw [ih (i + 1) (fun m h1 h2 => hrun m (by omega) (by omega))]
    have : i + 1 + f = i + (f + 1) := by omega
    rw [this]

/-- C7: when submission succeeds but the running predicate never turns true
during the 30 one-second polls of the wait-for-start bound and no stop is
requested, `submit_test_list` returns `success = true` together with the
did-not-start warning — a non-fatal outcome. -/
theorem submit_start_timeout_warning (env : MonitorEnv) (L : List String) (fuel : Nat)
    (hL : L ≠ []) (hstop : env.stopAt = none)
    (hrun : ∀ m, m < 30 → env.running m = false) :
    submit_test_list true env true L fuel
      = .ok (some ⟨⟨true, none,
          some "Test submission successful but test did not start within timeout"⟩,
          0, true, true⟩) := by
  have hw : waitForStart env 0 30 = (false, 30) := by
    have := waitForStart_never_starts env hstop 30 0 (fun m _ h2 => hrun m (by omega))
    simpa using this
  have hs : stopRead env 30 = false := by simp [stopRead, hstop]
  simp only [submit_test_list, Bool.not_true, Bool.false_eq_true, if_false,
    List.isEmpty_eq_true, hL, hw, hs]
  simp

/-- Witness: a run where the app never reports running and no stop arrives
ends in the warning result. -/
theorem submit_start_timeout_warning_witness :
    submit_test_list true ⟨fun _ => false, none⟩ true ["TC1"] 0
      = .ok (some ⟨⟨true, none,
          some "Test submission successful but test did not start within timeout"⟩,
          0, true, true⟩) :=
  submit_start_timeout_warning ⟨fun _ => false, none⟩ ["TC1"] 0
    (by simp) rfl (fun m _ => rfl)

/-- C10: with the handler initialized, an empty test list makes
`submit_test_list` return `{success: false, error: "Empty test list
provided"}` immediately: no popup-responder thread is started, no
submission request is issued, and no force stop happens. -/
theorem submit_empty_list_rejected (env : MonitorEnv) (submitOk : Bool) (fuel : Nat) :
    submit_test_list true env submitOk [] fuel
      = .ok (some ⟨⟨false, some "Empty test list provided", none⟩, 0, false, false⟩) :=
  rfl

/-- C8: when the known port already has a live listener and at least one of
the fixed probe paths `/api/healthcheck`, `/`, `/api/status` answers its
GET, `start_and_get_url` returns `http://localhost:{port}` immediately and
no subprocess is launched. -/
theorem launcher_idempotent_probe (e : LaunchEnv) (p maxA : Nat)
    (hport : e.known_port = some p) (huse : e.portInUse = true)
    (hprobe : ∃ ep ∈ probeEndpoints, e.probeOk ep = true) :
    start_and_get_url e maxA = (some ("http://localhost:" ++ toString p), false) := by
  have hchk : check_application_running e = true := by
    rw [check_application_running, hport]
    simp only [huse, Bool.not_true, Bool.false_eq_true, if_false]
    rw [List.find?_isSome]
    exact hprobe
  simp [start_and_get_url, hchk, LaunchEnv.webUrl, hport]

/-- Witness: port 8765 occupied and every probe answering gives the known
URL with no launch. -/
theorem launcher_idempotent_probe_witness :
    start_and_get_url ⟨some 8765, true, fun _ => true, true, true,
        fun _ => false, fun _ _ => false⟩ 3
      = (some ("http://localhost:" ++ toString 8765), false) :=
  launcher_idempotent_probe ⟨some 8765, true, fun _ => true, true, true,
      fun _ => false, fun _ _ => false⟩ 8765 3 rfl rfl
    ⟨"/api/healthcheck", by simp [probeEndpoints], rfl⟩

/-- Helper: with no stop requested and the running oracle false from tick
`t` on, the running-phase loop exits within any fuel exceeding `t - i`. -/
theorem monitorLoop_finishes (env : MonitorEnv) (hstop : env.stopAt = none) :
    ∀ fuel i t, i ≤ t → (∀ m, t ≤ m → env.running m = false) → t - i < fuel →
      ∃ j, monitorLoop env i fuel = some j := by
  intro fuel
  induction fuel with
  | zero => intro i t h1 _ h3; omega
  | succ f ih =>
    intro i t hit hrun _
    cases hr : env.running i with
    | false =>
      refine ⟨i, ?_⟩
      rw [monitorLoop, hr]
      simp
    | true =>
      have hlt : i < t := by
        rcases Nat.lt_or_ge i t with h | h
        · exact h
        · rw [hrun i h] at hr; exact absurd hr (by decide)
      have hs : stopRead env i = false := by simp [stopRead, hstop]
      rw [monitorLoop, hr, hs]
      simp only [Bool.not_false, Bool.true_and]
      exact ih (i + 1) t (by omega) hrun (by omega)

/-- C9 (implicit): any exception inside `_is_test_running` yields `False`:
a non-dict `data` payload (for instance a raw string) always raises and the
method returns not-running; in particular a transport-failure result from
`send_request` (whose response has no `data`) makes the predicate `False`;
consequently, once the running oracle turns false with no stop requested —
e.g. because every poll now fails at the transport — the monitor loop of
`submit_test_list` terminates and the call reports plain `{success: true}`
as if the run completed. -/
theorem monitor_exception_returns_false_and_completes :
    (∀ (st : SystemState) (s : String) (asr : Json),
        (∃ e, is_test_runningBody st
            (.obj [("response", .obj [("data", .str s)])]) asr = .error e)
          ∧ (is_test_running st
            (.obj [("response", .obj [("data", .str s)])]) asr).1 = false)
      ∧ (∀ (st : SystemState) (base1 base2 : String) (r1 r2 : Json),
        send_request base1 "GET" "Results" "GetTestStatus" .connError = .ok r1 →
        send_request base2 "GET" "App" "GetAppState" .connError = .ok r2 →
        (is_test_running st r1 r2).1 = false)
      ∧ (∀ (env : MonitorEnv) (L : List String) (i t fuel : Nat),
        L ≠ [] → env.stopAt = none →
        waitForStart env 0 30 = (true, i) → i ≤ t →
        (∀ m, t ≤ m → env.running m = false) → t - i < fuel →
        submit_test_list true env true L fuel
          = .ok (some ⟨⟨true, none, none⟩, 0, true, true⟩)) := by
  refine ⟨?_, ?_, ?_⟩
  · intro st s asr
    have t1 : pyGet (Json.obj [("response", Json.obj [("data", Json.str s)])]) "response"
        (Json.obj []) = Except.ok (Json.obj [("data", Json.str s)]) := rfl
    have t2 : pyGet (Json.obj [("data", Json.str s)]) "data" (Json.obj [])
        = Except.ok (Json.str s) := rfl
    have t3 : pyGet (Json.str s) "Test Status" (Json.str "")
        = Except.error "AttributeError" := rfl
    cases hA : pyGet asr "response" (Json.obj []) with
    | error eA =>
      refine ⟨⟨(eA, st), ?_⟩, ?_⟩ <;>
        simp only [is_test_running, is_test_runningBody, t1, t2, hA]
    | ok aresp =>
      cases hB : pyGet aresp "data" (Json.obj []) with
      | error eB =>
        refine ⟨⟨(eB, st), ?_⟩, ?_⟩ <;>
          simp only [is_test_running, is_test_runningBody, t1, t2, hA, hB]
      | ok adata =>
        refine ⟨⟨("AttributeError", update_system_state st adata (Json.str s)), ?_⟩, ?_⟩ <;>
          simp only [is_test_running, is_test_runningBody, t1, t2, hA, hB, t3]
  · intro st base1 base2 r1 r2 h1 h2
    obtain rfl := Except.ok.inj h1
    obtain rfl := Except.ok.inj h2
    rfl
  · intro env L i t fuel hL hstop hw hit hrun hfuel
    obtain ⟨j, hj⟩ := monitorLoop_finishes env hstop fuel i t hit hrun hfuel
    have hsj : stopRead env j = false := by simp [stopRead, hstop]
    simp only [submit_test_list, Bool.not_true, Bool.false_eq_true, if_false,
      List.isEmpty_eq_true, hL, hw, hj, hsj]
    simp

/-- Witness: a string-valued `data` raises and yields not-running; two
connection-error results yield not-running; and a run whose running oracle
goes false after tick 1 with no stop ends in plain success. -/
theorem monitor_exception_returns_false_and_completes_witness :
    ((∃ e, is_test_runningBody initialSystemState
          (.obj [("response", .obj [("data", .str "oops")])])
          (mkAppStateResponse "BUSY") = .error e)
        ∧ (is_test_running initialSystemState
          (.obj [("response", .obj [("data", .str "oops")])])
          (mkAppStateResponse "BUSY")).1 = false)
      ∧ (is_test_running initialSystemState
          ((send_request "b" "GET" "Results" "GetTestStatus" .connError).toOption.getD .null)
          ((send_request "b" "GET" "App" "GetAppState" .connError).toOption.getD .null)).1
        = false
      ∧ submit_test_list true ⟨fun m => decide (m = 1), none⟩ true ["TC1"] 1
        = .ok (some ⟨⟨true, none, none⟩, 0, true, true⟩) :=
  ⟨monitor_exception_returns_false_and_completes.1 initialSystemState "oops"
      (mkAppStateResponse "BUSY"),
   monitor_exception_returns_false_and_completes.2.1 initialSystemState "b" "b" _ _ rfl rfl,
   monitor_exception_returns_false_and_completes.2.2 ⟨fun m => decide (m = 1), none⟩
      ["TC1"] 2 2 1 (by simp) rfl rfl (le_refl 2)
      (fun m hm => by simp only [decide_eq_false_iff_not]; omega) (by decide)⟩
